import Mathlib

/-!
A shallow embedding of model/unet.py: the UNet wrapper class, its constructor
and its build, checkpoint, tensorboard, train and evaluate methods, together
with the layer graph that build assembles and the history-persistence step
that train performs at the end of the fit loop.

Framework layers (convolution, pooling, upsampling, concatenation) are
represented as an explicit graph datatype with a shape-propagation function
following the framework's documented output-shape rules; the Python file
object and pickle interactions at the end of train are modelled explicitly
so that the failure behaviour of the persistence step can be settled.
-/

set_option autoImplicit false
set_option linter.unusedVariables false

namespace UNet

/-- One training or test sample (a flattened image). -/
abbrev Sample := List Rat

/-- A batch of samples; the length of the outer list is the example count,
matching the Python len applied to the first array axis. -/
abbrev Tensor := List Sample

/-- A key of the nested configuration mapping: section name and key name,
so that Config.config of sec and key reads the pair (sec, key). -/
abbrev ConfigKey := String × String

/-- A value stored in the configuration mapping. -/
inductive ConfigVal where
  | str (s : String)
  | nat (n : Nat)
  | rat (q : Rat)
deriving DecidableEq

/-- The nested configuration mapping supplied by the configuration
collaborator, flattened to (section, key) pairs. -/
abbrev ConfigMap := List (ConfigKey × ConfigVal)

/-- Look up a section/key pair in the configuration mapping. -/
def cfgGet (cfg : ConfigMap) (sec key : String) : Option ConfigVal :=
  (cfg.find? (fun e => e.1.1 == sec && e.1.2 == key)).map (·.2)

/-- Read a configuration value as a string. -/
def ConfigVal.asStr : ConfigVal → Option String
  | .str s => some s
  | _ => none

/-- Read a configuration value as a natural number. -/
def ConfigVal.asNat : ConfigVal → Option Nat
  | .nat n => some n
  | _ => none

/-- Read a configuration value as a rational (a Python int is accepted
where a float is expected, as in Python). -/
def ConfigVal.asRat : ConfigVal → Option Rat
  | .rat q => some q
  | .nat n => some (n : Rat)
  | _ => none

/-- Padding mode of a convolution, the VALID and SAME strings of the source. -/
inductive Padding where
  | valid
  | same
deriving DecidableEq

/-- The layer graph assembled by UNet.build._create_model.  Every layer call
of the source is one constructor application; Concatenate is always applied
to exactly two tensors in the source, so it is binary here. -/
inductive Graph where
  | input (h w c : Nat)
  | conv2D (filters kernel : Nat) (pad : Padding) (x : Graph)
  | batchNorm (x : Graph)
  | activation (f : String) (x : Graph)
  | maxPool2D (pool : Nat) (x : Graph)
  | upSampling2D (sh sw : Nat) (x : Graph)
  | concatenate (a b : Graph)
  | conv2DTranspose (filters kernel : Nat) (pad : Padding) (x : Graph)
deriving DecidableEq

/-- Output shape (height, width, channels) of a graph node, following the
framework's shape rules for stride-1 layers: SAME convolution preserves the
spatial extent, VALID convolution shrinks it by kernel - 1, max pooling with
VALID padding divides it, upsampling multiplies it, transposed VALID
convolution grows it by kernel - 1, and concatenation on the channel axis
requires equal spatial extents and adds the channel counts.  none models a
framework shape error. -/
def outShape : Graph → Option (Nat × Nat × Nat)
  | .input h w c => some (h, w, c)
  | .conv2D f k pad x =>
    (outShape x).bind fun s =>
      match pad with
      | .same => some (s.1, s.2.1, f)
      | .valid =>
        if k ≤ s.1 ∧ k ≤ s.2.1 then some (s.1 - k + 1, s.2.1 - k + 1, f) else none
  | .batchNorm x => outShape x
  | .activation _ x => outShape x
  | .maxPool2D p x =>
    (outShape x).bind fun s =>
      if 0 < p ∧ p ≤ s.1 ∧ p ≤ s.2.1 then
        some ((s.1 - p) / p + 1, (s.2.1 - p) / p + 1, s.2.2)
      else none
  | .upSampling2D sh sw x =>
    (outShape x).map fun s => (s.1 * sh, s.2.1 * sw, s.2.2)
  | .concatenate a b =>
    (outShape a).bind fun s =>
      (outShape b).bind fun t =>
        if s.1 = t.1 ∧ s.2.1 = t.2.1 then some (s.1, s.2.1, s.2.2 + t.2.2) else none
  | .conv2DTranspose f k pad x =>
    (outShape x).bind fun s =>
      match pad with
      | .same => some (s.1, s.2.1, f)
      | .valid => some (s.1 + k - 1, s.2.1 + k - 1, f)

/-- The local helper of UNet.build: one Conv2D layer followed by batch
normalization and a relu activation. -/
def _one_cnn_layer (inp : Graph) (num_filters kernel_size : Nat) (pad : Padding) : Graph :=
  .activation "relu" (.batchNorm (.conv2D num_filters kernel_size pad inp))

/-- Input(shape=(50, 50, 2)) of _create_model. -/
def input_layer : Graph := .input 50 50 2

/-- First down-sampling stage: three 64-filter blocks (VALID then SAME then SAME). -/
def conv1 : Graph :=
  _one_cnn_layer (_one_cnn_layer (_one_cnn_layer input_layer 64 3 .valid) 64 3 .same) 64 3 .same

/-- MaxPooling2D(pool_size=2) after the first stage. -/
def pool1 : Graph := .maxPool2D 2 conv1

/-- Second down-sampling stage: three 128-filter SAME blocks. -/
def conv2 : Graph :=
  _one_cnn_layer (_one_cnn_layer (_one_cnn_layer pool1 128 3 .same) 128 3 .same) 128 3 .same

/-- MaxPooling2D(pool_size=2) after the second stage. -/
def pool2 : Graph := .maxPool2D 2 conv2

/-- Third down-sampling stage: three 256-filter SAME blocks. -/
def conv3 : Graph :=
  _one_cnn_layer (_one_cnn_layer (_one_cnn_layer pool2 256 3 .same) 256 3 .same) 256 3 .same

/-- MaxPooling2D(pool_size=2) after the third stage. -/
def pool3 : Graph := .maxPool2D 2 conv3

/-- Fourth down-sampling stage: three 512-filter SAME blocks, no pooling after. -/
def conv4 : Graph :=
  _one_cnn_layer (_one_cnn_layer (_one_cnn_layer pool3 512 3 .same) 512 3 .same) 512 3 .same

/-- UpSampling2D(size=(2, 2)) applied to conv4. -/
def up5 : Graph := .upSampling2D 2 2 conv4

/-- Concatenate()([conv3, up5]). -/
def merge5 : Graph := .concatenate conv3 up5

/-- First up-sampling stage blocks: 256 filters (kernel 2 then 3 then 3, SAME). -/
def conv5 : Graph :=
  _one_cnn_layer (_one_cnn_layer (_one_cnn_layer merge5 256 2 .same) 256 3 .same) 256 3 .same

/-- UpSampling2D(size=(2, 2)) applied to conv5. -/
def up6 : Graph := .upSampling2D 2 2 conv5

/-- Concatenate()([conv2, up6]). -/
def merge6 : Graph := .concatenate conv2 up6

/-- Second up-sampling stage blocks: 128 filters (kernel 2 then 3 then 3, SAME). -/
def conv6 : Graph :=
  _one_cnn_layer (_one_cnn_layer (_one_cnn_layer merge6 128 2 .same) 128 3 .same) 128 3 .same

/-- UpSampling2D(size=(2, 2)) applied to conv6. -/
def up7 : Graph := .upSampling2D 2 2 conv6

/-- Concatenate()([conv1, up7]). -/
def merge7 : Graph := .concatenate conv1 up7

/-- Third up-sampling stage blocks: 64 filters (kernel 2 then 3 then 3, SAME). -/
def conv7 : Graph :=
  _one_cnn_layer (_one_cnn_layer (_one_cnn_layer merge7 64 2 .same) 64 3 .same) 64 3 .same

/-- Conv2DTranspose(1, kernel_size=3, padding=VALID) restoring 50 x 50. -/
def conv8 : Graph := .conv2DTranspose 1 3 .valid conv7

/-- Concatenate()([input_layer, conv8]): concatenation with the raw input. -/
def merge9 : Graph := .concatenate input_layer conv8

/-- Conv2D(1, kernel_size=1) (default VALID padding) followed by a relu
activation: the final single-channel output. -/
def conv10 : Graph := .activation "relu" (.conv2D 1 1 .valid merge9)

/-- A framework model: its input node and its output node. -/
structure NetModel where
  inputs : Graph
  outputs : Graph
deriving DecidableEq

/-- The local _create_model of UNet.build: Model(inputs=input_layer, outputs=conv10). -/
def _create_model : NetModel := { inputs := input_layer, outputs := conv10 }

/-- The ExponentialDecay learning-rate schedule configured in UNet.build. -/
structure ExponentialDecaySchedule where
  initial_learning_rate : Rat
  decay_steps : Nat
  decay_rate : Rat
deriving DecidableEq

/-- A compiled model: the graph plus the compile arguments of UNet.build. -/
structure CompiledModel where
  net : NetModel
  optimizerName : String
  lr_schedule : ExponentialDecaySchedule
  loss : String
  metrics : List String
deriving DecidableEq

/-- One token of the checkpoint file-name template.  The source template
string is weights- followed by the epoch index zero-padded to width 2, a
dash, the loss with 4 decimal places, a dash, and the validation loss with
4 decimal places. -/
inductive PathToken where
  | lit (s : String)
  | fmtEpoch (width : Nat)
  | fmtLoss (places : Nat)
  | fmtValLoss (places : Nat)
deriving DecidableEq

/-- The tokenized basename template of UNet.checkpoint. -/
def weightsTemplate : List PathToken :=
  [.lit "weights-", .fmtEpoch 2, .lit "-", .fmtLoss 4, .lit "-", .fmtValLoss 4]

/-- The decimal-place counts of the floating-point loss fields of a template,
in order of appearance. -/
def lossPlaces : List PathToken → List Nat
  | [] => []
  | .fmtLoss p :: rest => p :: lossPlaces rest
  | .fmtValLoss p :: rest => p :: lossPlaces rest
  | _ :: rest => lossPlaces rest

/-- The zero-pad widths of the epoch fields of a template, in order. -/
def epochWidths : List PathToken → List Nat
  | [] => []
  | .fmtEpoch w :: rest => w :: epochWidths rest
  | _ :: rest => epochWidths rest

/-- os.path.join with the separator written out. -/
def joinPath (parts : List String) : String := String.intercalate "/" parts

/-- The filepath argument of ModelCheckpoint: a directory part and a
templated basename. -/
structure CheckpointFilepath where
  dir : String
  base : List PathToken
deriving DecidableEq

/-- The ModelCheckpoint callback as configured by UNet.checkpoint. -/
structure ModelCheckpointCB where
  filepath : CheckpointFilepath
  monitor : String
  verbose : Nat
  save_best_only : Bool
  save_weights_only : Bool
  mode : String
  save_freq : String
  period : Nat
deriving DecidableEq

/-- The TensorBoard callback as configured by UNet.tensorboard. -/
structure TensorBoardCB where
  log_dir : String
  histogram_freq : Nat
deriving DecidableEq

/-- The ImageDataGenerator constructed in UNet.__init__, which captures only
the validation split. -/
structure ImageDataGeneratorCfg where
  validation_split : Rat
deriving DecidableEq

/-- The fields of the UNet wrapper object, exactly those assigned in
UNet.__init__. -/
structure UNetState where
  train_input : Option Tensor
  train_output : Option Tensor
  test_input : Option Tensor
  test_output : Option Tensor
  data_generator : ImageDataGeneratorCfg
  model_path : String
  experiment_name : String
  model : Option CompiledModel
  checkpoint_callback : Option ModelCheckpointCB
  tensorboard_callback : Option TensorBoardCB
  epochs : Nat
  train_batch_size : Nat
  val_batch_size : Nat
deriving DecidableEq

/-- Configuration key read at line 36 of the source. -/
def kValidationSplit : ConfigKey := ("train", "validation_split")

/-- Configuration key read at line 39 of the source. -/
def kModelPath : ConfigKey := ("model", "model_path")

/-- Configuration key read at line 40 of the source. -/
def kExperimentName : ConfigKey := ("model", "experiment_name")

/-- Configuration key read at line 46 of the source. -/
def kEpochs : ConfigKey := ("train", "epochs")

/-- Configuration key read at line 47 of the source. -/
def kTrainBatchSize : ConfigKey := ("train", "train_batch_size")

/-- Configuration key read at line 48 of the source. -/
def kValBatchSize : ConfigKey := ("train", "val_batch_size")

/-- Configuration key read at line 119 of the source. -/
def kInitialLearningRate : ConfigKey := ("train", "initial_learning_rate")

/-- Configuration key read at line 120 of the source. -/
def kDecaySteps : ConfigKey := ("train", "decay_steps")

/-- Configuration key read at line 121 of the source. -/
def kDecayRate : ConfigKey := ("train", "decay_rate")

/-- UNet.__init__: reads the configuration keys in source order and builds
the initial wrapper state; the second component is the list of configuration
keys actually read (a missing or ill-typed key aborts the constructor, so
later keys are then not read).  Every data and callback field starts as the
Python None. -/
def unetInit (cfg : ConfigMap) : Option UNetState × List ConfigKey :=
  match (cfgGet cfg "train" "validation_split").bind ConfigVal.asRat with
  | none => (none, [kValidationSplit])
  | some validation_split =>
    match (cfgGet cfg "model" "model_path").bind ConfigVal.asStr with
    | none => (none, [kValidationSplit, kModelPath])
    | some model_path =>
      match (cfgGet cfg "model" "experiment_name").bind ConfigVal.asStr with
      | none => (none, [kValidationSplit, kModelPath, kExperimentName])
      | some experiment_name =>
        match (cfgGet cfg "train" "epochs").bind ConfigVal.asNat with
        | none => (none, [kValidationSplit, kModelPath, kExperimentName, kEpochs])
        | some epochs =>
          match (cfgGet cfg "train" "train_batch_size").bind ConfigVal.asNat with
          | none =>
            (none, [kValidationSplit, kModelPath, kExperimentName, kEpochs, kTrainBatchSize])
          | some train_batch_size =>
            match (cfgGet cfg "train" "val_batch_size").bind ConfigVal.asNat with
            | none =>
              (none, [kValidationSplit, kModelPath, kExperimentName, kEpochs,
                      kTrainBatchSize, kValBatchSize])
            | some val_batch_size =>
              (some { train_input := none
                      train_output := none
                      test_input := none
                      test_output := none
                      data_generator := { validation_split := validation_split }
                      model_path := model_path
                      experiment_name := experiment_name
                      model := none
                      checkpoint_callback := none
                      tensorboard_callback := none
                      epochs := epochs
                      train_batch_size := train_batch_size
                      val_batch_size := val_batch_size },
               [kValidationSplit, kModelPath, kExperimentName, kEpochs,
                kTrainBatchSize, kValBatchSize])

/-- UNet.load_data: stores the four tensors returned by the data-loading
collaborator. -/
def load_data (s : UNetState) (d : Tensor × Tensor × Tensor × Tensor) : UNetState :=
  { s with train_input := some d.1
           train_output := some d.2.1
           test_input := some d.2.2.1
           test_output := some d.2.2.2 }

/-- The compiled model produced by UNet.build from the three learning-rate
schedule parameters: the fixed graph, the Adam optimizer on an exponential
decay schedule, the mean-absolute-error loss and the accuracy metric. -/
def compiledFor (ilr : Rat) (ds : Nat) (dr : Rat) : CompiledModel :=
  { net := _create_model
    optimizerName := "adam"
    lr_schedule := { initial_learning_rate := ilr, decay_steps := ds, decay_rate := dr }
    loss := "mean_absolute_error"
    metrics := ["accuracy"] }

/-- UNet.build: assembles _create_model, then reads the three learning-rate
schedule keys from the configuration (source lines 119 to 121) and compiles
with the Adam optimizer, mean-absolute-error loss and an accuracy metric.
The second component is the list of configuration keys read; a missing or
ill-typed key raises, modelled as none. -/
def build (cfg : ConfigMap) (s : UNetState) : Option UNetState × List ConfigKey :=
  match (cfgGet cfg "train" "initial_learning_rate").bind ConfigVal.asRat with
  | none => (none, [kInitialLearningRate])
  | some initial_learning_rate =>
    match (cfgGet cfg "train" "decay_steps").bind ConfigVal.asNat with
    | none => (none, [kInitialLearningRate, kDecaySteps])
    | some decay_steps =>
      match (cfgGet cfg "train" "decay_rate").bind ConfigVal.asRat with
      | none => (none, [kInitialLearningRate, kDecaySteps, kDecayRate])
      | some decay_rate =>
        (some { s with model := some (compiledFor initial_learning_rate decay_steps decay_rate) },
         [kInitialLearningRate, kDecaySteps, kDecayRate])

/-- The ModelCheckpoint callback built by UNet.checkpoint from the captured
model path and experiment name. -/
def checkpointCB (mp en : String) : ModelCheckpointCB :=
  { filepath := { dir := joinPath [mp, en, "checkpoints"], base := weightsTemplate }
    monitor := "val_loss"
    verbose := 0
    save_best_only := true
    save_weights_only := false
    mode := "auto"
    save_freq := "epoch"
    period := 1 }

/-- UNet.checkpoint: stores the ModelCheckpoint callback in its field.  The
method contains no configuration read, so its read list is empty. -/
def checkpoint (cfg : ConfigMap) (s : UNetState) : UNetState × List ConfigKey :=
  (({ s with checkpoint_callback := some (checkpointCB s.model_path s.experiment_name) }), [])

/-- UNet.tensorboard: computes the timestamped log directory, creates the
default summary file writer there (returned as the second component, the
only effect outside the wrapper fields) and stores the TensorBoard callback.
The method contains no configuration read. -/
def tensorboard (cfg : ConfigMap) (now : String) (s : UNetState) :
    (UNetState × String) × List ConfigKey :=
  let log_dir := joinPath [s.model_path, "logs", s.experiment_name, now]
  (({ s with tensorboard_callback := some { log_dir := log_dir, histogram_freq := 1 } },
    log_dir), [])

/-- Modelled from the spec: the framework checkpoint callback's best-only
policy, which saves on an epoch end only when the monitored validation loss
improves on the best value seen so far (and always saves when best-only is
off or no best value exists yet). -/
def onEpochEndSaves (cb : ModelCheckpointCB) (best : Option Rat) (val : Rat) : Bool :=
  match cb.save_best_only, best with
  | false, _ => true
  | true, none => true
  | true, some b => decide (val < b)

/-- A Python error raised by the wrapper or by the modelled library calls. -/
inductive PyErr where
  | fileNotFound (path : String)
  | attributeNone (attr : String)
  | attributeMissing (attr : String)
  | typeError (msg : String)
  | notWritable
  | zeroDivision
deriving DecidableEq

/-- The filesystem visible to the history-persistence step: a list of
(path, contents) pairs. -/
abbrev FileSystem := List (String × List Nat)

/-- The opaque History object returned by the framework fit routine. -/
abbrev History := Nat

/-- Abstract serialized bytes of a history object. -/
def serializeHistory (h : History) : List Nat := [h]

/-- A Python file object: its path and whether it was opened writable. -/
structure FileHandle where
  path : String
  writable : Bool
deriving DecidableEq

/-- Python open: the default text read mode requires the file to exist and
yields a non-writable handle; a write mode yields a writable handle. -/
def pyOpen (fs : FileSystem) (path mode : String) : Except PyErr FileHandle :=
  if mode == "r" || mode == "rb" then
    if fs.any (fun e => e.1 == path) then Except.ok { path := path, writable := false }
    else Except.error (PyErr.fileNotFound path)
  else Except.ok { path := path, writable := true }

/-- Replace or create a file. -/
def writeFile (fs : FileSystem) (path : String) (contents : List Nat) : FileSystem :=
  (path, contents) :: fs.filter (fun e => e.1 != path)

/-- A Python object passed to pickle.dump: either the opened file object or
the history object. -/
inductive PyObj where
  | file (h : FileHandle)
  | history (h : History)
deriving DecidableEq

/-- One pickle.dump call as written: the first argument is the object to
serialize, the second the output stream. -/
structure DumpCall where
  obj : PyObj
  sink : PyObj
deriving DecidableEq

/-- pickle.dump semantics: the stream argument must expose a write method
(a History object exposes none), the stream must be writable, and a file
object cannot itself be pickled. -/
def pickleDump (obj sink : PyObj) (fs : FileSystem) : Except PyErr FileSystem :=
  match sink with
  | .history _ => Except.error (PyErr.attributeMissing "write")
  | .file h =>
    match h.writable with
    | false => Except.error PyErr.notWritable
    | true =>
      match obj with
      | .file _ => Except.error (PyErr.typeError "cannot pickle file objects")
      | .history hv => Except.ok (writeFile fs h.path (serializeHistory hv))

/-- Run a recorded pickle.dump call. -/
def pickleDumpCall (c : DumpCall) (fs : FileSystem) : Except PyErr FileSystem :=
  pickleDump c.obj c.sink fs

/-- The pickle.dump call at line 164 of the source, exactly as written:
pickle.dump(f, model_history) puts the file object in the object slot and
the history in the stream slot. -/
def historyDumpCall (f : FileHandle) (hist : History) : DumpCall :=
  { obj := .file f, sink := .history hist }

/-- The path of the history file written at the end of UNet.train. -/
def historyPklPath (mp en : String) : String := joinPath [mp, en, "model_history.pkl"]

/-- The history-persistence step at lines 163 to 164 of the source: open the
history file with the default read mode, then pickle.dump(f, model_history). -/
def persistHistory (mp en : String) (fs : FileSystem) (hist : History) :
    Except PyErr FileSystem :=
  match pyOpen fs (historyPklPath mp en) "r" with
  | .error e => Except.error e
  | .ok f => pickleDumpCall (historyDumpCall f hist) fs

/-- One ImageDataGenerator.flow call of UNet.train. -/
structure FlowCall where
  x : Tensor
  y : Option Tensor
  batch_size : Nat
  subset : String
deriving DecidableEq

/-- The arguments passed to the framework fit routine by UNet.train. -/
structure FitCall where
  trainFlow : FlowCall
  validation_data : FlowCall
  steps_per_epoch : Rat
  shuffle : Bool
  epochs : Nat
  callbacks : Option ModelCheckpointCB × Option TensorBoardCB
deriving DecidableEq

/-- The observable outcome of one UNet.train call: the fit call made (if the
fit routine was reached), the final outcome, and the filesystem afterwards. -/
structure TrainResult where
  fitCall : Option FitCall
  outcome : Except PyErr Unit
  fs : FileSystem

/-- Whether an Except value is a success. -/
def isOkE : Except PyErr Unit → Bool
  | .ok _ => true
  | .error _ => false

/-- The fit-call arguments assembled by UNet.train from the wrapper fields
and the training input: both flows drawn from the same training tensors with
the same generator, the steps-per-epoch true-division quotient, shuffling
enabled, the captured epoch count and the two callback fields. -/
def mkFitCall (s : UNetState) (ti : Tensor) : FitCall :=
  { trainFlow := { x := ti, y := s.train_output,
                   batch_size := s.train_batch_size, subset := "training" }
    validation_data := { x := ti, y := s.train_output,
                         batch_size := s.val_batch_size, subset := "validation" }
    steps_per_epoch :=
      (ti.length : Rat) / ((s.train_batch_size : Rat) + (s.val_batch_size : Rat))
    shuffle := true
    epochs := s.epochs
    callbacks := (s.checkpoint_callback, s.tensorboard_callback) }

/-- The observable result of UNet.train: looking up fit on a None model
raises; flowing a None input raises; the steps-per-epoch true division
raises on a zero divisor; otherwise the fit call is made and then the
history-persistence step runs.  The fit routine itself is external and is
abstracted by the supplied history value. -/
def trainResult (s : UNetState) (fs : FileSystem) (hist : History) : TrainResult :=
  match s.model with
  | none => { fitCall := none, outcome := Except.error (PyErr.attributeNone "fit"), fs := fs }
  | some _ =>
    match s.train_input with
    | none =>
      { fitCall := none
        outcome := Except.error (PyErr.typeError "flow requires an input array")
        fs := fs }
    | some ti =>
      if s.train_batch_size + s.val_batch_size = 0 then
        { fitCall := none, outcome := Except.error PyErr.zeroDivision, fs := fs }
      else
        match persistHistory s.model_path s.experiment_name fs hist with
        | .error e => { fitCall := some (mkFitCall s ti), outcome := Except.error e, fs := fs }
        | .ok fs2 => { fitCall := some (mkFitCall s ti), outcome := Except.ok (), fs := fs2 }

/-- UNet.train: the observable result paired with the configuration keys the
method reads (none: its body contains no configuration access). -/
def train (cfg : ConfigMap) (s : UNetState) (fs : FileSystem) (hist : History) :
    TrainResult × List ConfigKey :=
  (trainResult s fs hist, [])

/-- UNet.evaluate: predict on a None model raises; predicting over a None
test input raises in the framework; otherwise the plotting collaborator
receives exactly (test_output, test_input, predicted output), and nothing is
returned beyond that forwarded triple.  The prediction function of the
compiled model is external and passed as a parameter.  The method contains
no configuration read. -/
def evaluate (cfg : ConfigMap) (predictF : NetModel → Tensor → Tensor) (s : UNetState) :
    Except PyErr (Option Tensor × Tensor × Tensor) × List ConfigKey :=
  (match s.model with
   | none => Except.error (PyErr.attributeNone "predict")
   | some m =>
     match s.test_input with
     | none => Except.error (PyErr.typeError "predict requires an input array")
     | some ti => Except.ok (s.test_output, ti, predictF m.net ti),
   [])

/-- An operation on the wrapper other than train and evaluate, used to
describe call sequences in which build never occurs. -/
inductive Op where
  | loadStep (d : Tensor × Tensor × Tensor × Tensor)
  | buildStep
  | checkpointStep
  | tensorboardStep (now : String)

/-- Whether an operation is the build call. -/
def Op.isBuildStep : Op → Bool
  | .buildStep => true
  | _ => false

/-- Apply one operation to the wrapper state; a raising build aborts the
sequence. -/
def step (cfg : ConfigMap) (s : UNetState) : Op → Option UNetState
  | .loadStep d => some (load_data s d)
  | .buildStep => (build cfg s).1
  | .checkpointStep => some (checkpoint cfg s).1
  | .tensorboardStep now => some ((tensorboard cfg now s).1.1)

/-- Apply a sequence of operations. -/
def runOps (cfg : ConfigMap) : UNetState → List Op → Option UNetState
  | s, [] => some s
  | s, o :: rest =>
    match step cfg s o with
    | none => none
    | some s2 => runOps cfg s2 rest

/-- Construct the wrapper and apply a sequence of operations. -/
def run (cfg : ConfigMap) (ops : List Op) : Option UNetState :=
  match (unetInit cfg).1 with
  | none => none
  | some s0 => runOps cfg s0 ops

/-- Peel one convolution block with the given filter count from a graph:
succeeds on relu-activated batch-normalized convolutions of that width,
whatever the kernel size and padding, and returns the block input. -/
def isCnnBlock (g : Graph) (filters : Nat) : Option Graph :=
  match g with
  | .activation "relu" (.batchNorm (.conv2D f _ _ x)) =>
    if f = filters then some x else none
  | _ => none

/-- Check that a graph is exactly a chain of n convolution blocks of the
given filter count on top of the given base graph. -/
def isBlockChain : Nat → Graph → Nat → Graph → Bool
  | 0, g, _, base => decide (g = base)
  | n + 1, g, filters, base =>
    match isCnnBlock g filters with
    | some x => isBlockChain n x filters base
    | none => false

/-- A sample configuration mapping carrying every key the source reads. -/
def sampleCfg : ConfigMap :=
  [ (kValidationSplit, .rat 1)
  , (kModelPath, .str "models")
  , (kExperimentName, .str "exp1")
  , (kEpochs, .nat 10)
  , (kTrainBatchSize, .nat 2)
  , (kValBatchSize, .nat 3)
  , (kInitialLearningRate, .rat 2)
  , (kDecaySteps, .nat 100)
  , (kDecayRate, .rat 3) ]

/-- The wrapper state produced by the constructor on sampleCfg. -/
def initState0 : UNetState :=
  { train_input := none
    train_output := none
    test_input := none
    test_output := none
    data_generator := { validation_split := 1 }
    model_path := "models"
    experiment_name := "exp1"
    model := none
    checkpoint_callback := none
    tensorboard_callback := none
    epochs := 10
    train_batch_size := 2
    val_batch_size := 3 }

/-- The compiled model produced by build on sampleCfg. -/
def sampleCompiled : CompiledModel :=
  { net := _create_model
    optimizerName := "adam"
    lr_schedule := { initial_learning_rate := 2, decay_steps := 100, decay_rate := 3 }
    loss := "mean_absolute_error"
    metrics := ["accuracy"] }

/-- The wrapper state after build on sampleCfg. -/
def builtState0 : UNetState := { initState0 with model := some sampleCompiled }

/-- A sample training tensor of ten examples. -/
def sampleData : Tensor := List.replicate 10 []

/-- A built state with training data loaded. -/
def trainReadyState : UNetState := { builtState0 with train_input := some sampleData }

/-- A built state with test data loaded. -/
def evalReadyState : UNetState :=
  { builtState0 with test_input := some [[1]], test_output := some [[0]] }

/-- The fit call made by train on trainReadyState. -/
def sampleFitCall : FitCall :=
  { trainFlow := { x := sampleData, y := none, batch_size := 2, subset := "training" }
    validation_data := { x := sampleData, y := none, batch_size := 3, subset := "validation" }
    steps_per_epoch :=
      (sampleData.length : Rat)
        / ((trainReadyState.train_batch_size : Rat) + (trainReadyState.val_batch_size : Rat))
    shuffle := true
    epochs := 10
    callbacks := (none, none) }

/-! Helper lemmas shared by the claim theorems. -/

/-- The history-persistence step never returns a filesystem: the opened
handle is not writable and the pickle.dump arguments are reversed, so one of
the modelled errors is always raised. -/
theorem persistHistory_not_ok (mp en : String) (fs fs2 : FileSystem) (hist : History) :
    persistHistory mp en fs hist ≠ Except.ok fs2 := by
  unfold persistHistory
  split
  · exact fun h => Except.noConfusion h
  · exact fun h => Except.noConfusion h

/-- The constructor leaves the model field at its initial None. -/
theorem unetInit_model_none (cfg : ConfigMap) (s : UNetState)
    (h : (unetInit cfg).1 = some s) : s.model = none := by
  unfold unetInit at h
  rcases h1 : (cfgGet cfg "train" "validation_split").bind ConfigVal.asRat with _ | v1 <;>
    rw [h1] at h
  · exact Option.noConfusion (show (none : Option UNetState) = some s from h)
  rcases h2 : (cfgGet cfg "model" "model_path").bind ConfigVal.asStr with _ | v2 <;>
    rw [h2] at h
  · exact Option.noConfusion (show (none : Option UNetState) = some s from h)
  rcases h3 : (cfgGet cfg "model" "experiment_name").bind ConfigVal.asStr with _ | v3 <;>
    rw [h3] at h
  · exact Option.noConfusion (show (none : Option UNetState) = some s from h)
  rcases h4 : (cfgGet cfg "train" "epochs").bind ConfigVal.asNat with _ | v4 <;>
    rw [h4] at h
  · exact Option.noConfusion (show (none : Option UNetState) = some s from h)
  rcases h5 : (cfgGet cfg "train" "train_batch_size").bind ConfigVal.asNat with _ | v5 <;>
    rw [h5] at h
  · exact Option.noConfusion (show (none : Option UNetState) = some s from h)
  rcases h6 : (cfgGet cfg "train" "val_batch_size").bind ConfigVal.asNat with _ | v6 <;>
    rw [h6] at h
  · exact Option.noConfusion (show (none : Option UNetState) = some s from h)
  have h7 := Option.some.inj h
  subst h7
  rfl

/-- Any single non-build operation preserves a None model field. -/
theorem step_model_none (cfg : ConfigMap) (s s2 : UNetState) (o : Op)
    (hb : o.isBuildStep = false) (hm : s.model = none) (h : step cfg s o = some s2) :
    s2.model = none := by
  cases o with
  | loadStep d =>
    have h2 := Option.some.inj h
    subst h2
    exact hm
  | buildStep => exact Bool.noConfusion hb
  | checkpointStep =>
    have h2 := Option.some.inj h
    subst h2
    exact hm
  | tensorboardStep now =>
    have h2 := Option.some.inj h
    subst h2
    exact hm

/-- A sequence of non-build operations preserves a None model field. -/
theorem runOps_model_none (cfg : ConfigMap) (ops : List Op) :
    ∀ s s2 : UNetState, (∀ o ∈ ops, o.isBuildStep = false) → s.model = none →
      runOps cfg s ops = some s2 → s2.model = none := by
  induction ops with
  | nil =>
    intro s s2 _ hm h
    have h2 := Option.some.inj h
    subst h2
    exact hm
  | cons o rest ih =>
    intro s s2 hall hm h
    unfold runOps at h
    rcases hstep : step cfg s o with _ | s3
    · rw [hstep] at h
      exact absurd h (by simp)
    · rw [hstep] at h
      have hm3 := step_model_none cfg s s3 o (hall o (by simp)) hm hstep
      exact ih s3 s2 (fun o2 ho2 => hall o2 (by simp [ho2])) hm3 h

/-- The fit call made by train is either absent or exactly the one assembled
by mkFitCall from the stored training input. -/
theorem trainResult_fitCall (s : UNetState) (fs : FileSystem) (hist : History) :
    (trainResult s fs hist).fitCall = none ∨
    ∃ ti, s.train_input = some ti ∧
      (trainResult s fs hist).fitCall = some (mkFitCall s ti) := by
  unfold trainResult
  split
  · exact Or.inl rfl
  · split
    · exact Or.inl rfl
    · split
      · exact Or.inl rfl
      · split
        · exact Or.inr ⟨_, by assumption, rfl⟩
        · exact Or.inr ⟨_, by assumption, rfl⟩

/-! The claim theorems. -/

/-- C1: for every configuration, build produces a model graph whose input
shape is exactly (50, 50, 2) and whose output shape is exactly (50, 50, 1);
the graph is the constant _create_model, so the shapes do not depend on any
configuration value. -/
theorem build_io_shapes (cfg : ConfigMap) (s s2 : UNetState)
    (h : (build cfg s).1 = some s2) :
    s2.model.map CompiledModel.net = some _create_model ∧
    outShape _create_model.inputs = some (50, 50, 2) ∧
    outShape _create_model.outputs = some (50, 50, 1) := by
  refine ⟨?_, by decide, by decide⟩
  unfold build at h
  rcases h1 : (cfgGet cfg "train" "initial_learning_rate").bind ConfigVal.asRat with _ | ilr <;>
    rw [h1] at h
  · exact Option.noConfusion (show (none : Option UNetState) = some s2 from h)
  rcases h2 : (cfgGet cfg "train" "decay_steps").bind ConfigVal.asNat with _ | ds <;>
    rw [h2] at h
  · exact Option.noConfusion (show (none : Option UNetState) = some s2 from h)
  rcases h3 : (cfgGet cfg "train" "decay_rate").bind ConfigVal.asRat with _ | dr <;>
    rw [h3] at h
  · exact Option.noConfusion (show (none : Option UNetState) = some s2 from h)
  have h4 := Option.some.inj h
  subst h4
  rfl

/-- Witness for C1 at the sample configuration. -/
theorem build_io_shapes_witness :
    builtState0.model.map CompiledModel.net = some _create_model ∧
    outShape _create_model.inputs = some (50, 50, 2) ∧
    outShape _create_model.outputs = some (50, 50, 1) :=
  build_io_shapes sampleCfg initState0 builtState0 rfl

/-- C2: the graph assembled by build has exactly the stated topology: four
down-sampling stages of widths 64, 128, 256 and 512, each three
convolution, batch-normalization, relu blocks, with factor-2 max pooling
between stages; three up-sampling stages, each concatenating the factor-2
upsampled tensor with the mirrored down-sampling stage output; a transposed
convolution restoring 50 x 50; a concatenation with the raw input; and a
1 x 1 single-channel convolution followed by a relu activation. -/
theorem create_model_topology :
    _create_model.inputs = input_layer ∧
    _create_model.outputs = conv10 ∧
    isBlockChain 3 conv1 64 input_layer = true ∧
    pool1 = Graph.maxPool2D 2 conv1 ∧
    isBlockChain 3 conv2 128 pool1 = true ∧
    pool2 = Graph.maxPool2D 2 conv2 ∧
    isBlockChain 3 conv3 256 pool2 = true ∧
    pool3 = Graph.maxPool2D 2 conv3 ∧
    isBlockChain 3 conv4 512 pool3 = true ∧
    up5 = Graph.upSampling2D 2 2 conv4 ∧
    merge5 = Graph.concatenate conv3 up5 ∧
    isBlockChain 3 conv5 256 merge5 = true ∧
    up6 = Graph.upSampling2D 2 2 conv5 ∧
    merge6 = Graph.concatenate conv2 up6 ∧
    isBlockChain 3 conv6 128 merge6 = true ∧
    up7 = Graph.upSampling2D 2 2 conv6 ∧
    merge7 = Graph.concatenate conv1 up7 ∧
    isBlockChain 3 conv7 64 merge7 = true ∧
    conv8 = Graph.conv2DTranspose 1 3 Padding.valid conv7 ∧
    outShape conv8 = some (50, 50, 1) ∧
    merge9 = Graph.concatenate input_layer conv8 ∧
    conv10 = Graph.activation "relu" (Graph.conv2D 1 1 Padding.valid merge9) ∧
    outShape conv10 = some (50, 50, 1) := by
  decide

/-- C3: every train call that reaches the history-persistence step after the
fit loop fails there (the file is opened in read mode and the dump call
cannot write), and train never successfully persists the history object: its
outcome is never a success and the filesystem is returned unchanged, for
every wrapper state, filesystem and history value. -/
theorem train_history_persist_always_fails (cfg : ConfigMap) (s : UNetState)
    (fs : FileSystem) (hist : History) :
    isOkE (train cfg s fs hist).1.outcome = false ∧ (train cfg s fs hist).1.fs = fs := by
  show isOkE (trainResult s fs hist).outcome = false ∧ (trainResult s fs hist).fs = fs
  unfold trainResult
  split
  · exact ⟨rfl, rfl⟩
  · split
    · exact ⟨rfl, rfl⟩
    · split
      · exact ⟨rfl, rfl⟩
      · split
        · exact ⟨rfl, rfl⟩
        · rename_i fs2 heq
          exact absurd heq (persistHistory_not_ok _ _ _ _ _)

/-- C4: the steps-per-epoch value passed to the fit loop is the training
example count divided, in true rational division, by the sum of the train
and validation batch sizes. -/
theorem steps_per_epoch_formula (cfg : ConfigMap) (s : UNetState) (fs : FileSystem)
    (hist : History) (ti : Tensor) (fc : FitCall)
    (hti : s.train_input = some ti)
    (h : (train cfg s fs hist).1.fitCall = some fc) :
    fc.steps_per_epoch =
      (ti.length : Rat) / ((s.train_batch_size : Rat) + (s.val_batch_size : Rat)) := by
  replace h : (trainResult s fs hist).fitCall = some fc := h
  rcases trainResult_fitCall s fs hist with hnone | ⟨ti2, hti2, hsome⟩
  · rw [hnone] at h
    exact Option.noConfusion h
  · rw [hsome] at h
    have hteq : ti2 = ti := Option.some.inj (hti2.symm.trans hti)
    subst hteq
    have h2 := Option.some.inj h
    subst h2
    rfl

/-- Witness for C4 at a ten-example training set with batch sizes 2 and 3. -/
theorem steps_per_epoch_formula_witness :
    sampleFitCall.steps_per_epoch =
      (sampleData.length : Rat)
        / ((trainReadyState.train_batch_size : Rat) + (trainReadyState.val_batch_size : Rat)) :=
  steps_per_epoch_formula sampleCfg trainReadyState [] 0 sampleData sampleFitCall rfl rfl

/-- C5: the checkpoint callback persists the full model (not weights only)
once per epoch, only when the monitored validation loss improves under the
best-only policy, to the joined path of the model path, the experiment name,
the checkpoints directory and the weights template, whose epoch index is
zero-padded to 2 digits and whose two floating-point loss values each carry
4 decimal places. -/
theorem checkpoint_callback_spec (cfg : ConfigMap) (s : UNetState) (mp en : String)
    (b v : Rat) :
    (checkpoint cfg s).1.checkpoint_callback =
      some (checkpointCB s.model_path s.experiment_name) ∧
    (checkpointCB mp en).save_weights_only = false ∧
    (checkpointCB mp en).save_freq = "epoch" ∧
    (checkpointCB mp en).period = 1 ∧
    (checkpointCB mp en).monitor = "val_loss" ∧
    (checkpointCB mp en).save_best_only = true ∧
    onEpochEndSaves (checkpointCB mp en) (some b) v = decide (v < b) ∧
    (checkpointCB mp en).filepath.dir = joinPath [mp, en, "checkpoints"] ∧
    (checkpointCB mp en).filepath.base = weightsTemplate ∧
    epochWidths weightsTemplate = [2] ∧
    lossPlaces weightsTemplate = [4, 4] :=
  ⟨rfl, rfl, rfl, rfl, rfl, rfl, rfl, rfl, rfl, rfl, rfl⟩

/-- C6: on every wrapper object reached from construction by a sequence of
operations that never includes build, the model field is still its initial
None, and train fails by looking up fit on None, without the fit call being
made. -/
theorem train_before_build_fails (cfg : ConfigMap) (ops : List Op) (s : UNetState)
    (fs : FileSystem) (hist : History)
    (hnb : ∀ o ∈ ops, o.isBuildStep = false) (hrun : run cfg ops = some s) :
    s.model = none ∧
    (train cfg s fs hist).1.outcome = Except.error (PyErr.attributeNone "fit") ∧
    (train cfg s fs hist).1.fitCall = none := by
  have hm : s.model = none := by
    unfold run at hrun
    rcases hinit : (unetInit cfg).1 with _ | s0
    · rw [hinit] at hrun
      exact absurd hrun (by simp)
    · rw [hinit] at hrun
      exact runOps_model_none cfg ops s0 s hnb (unetInit_model_none cfg s0 hinit) hrun
  refine ⟨hm, ?_, ?_⟩ <;> simp [train, trainResult, hm]

/-- Witness for C6: the freshly constructed sample wrapper with no further
operations. -/
theorem train_before_build_fails_witness :
    initState0.model = none ∧
    (train sampleCfg initState0 [] 0).1.outcome = Except.error (PyErr.attributeNone "fit") ∧
    (train sampleCfg initState0 [] 0).1.fitCall = none :=
  train_before_build_fails sampleCfg [] initState0 [] 0 (by simp) rfl

/-- C7 counterexample: build does read the configuration again after
construction, so the configuration is not read exactly once: at the sample
configuration its read list is nonempty. -/
theorem config_read_once_cex : ¬ ((build sampleCfg initState0).2 = []) := by decide

/-- C7 amended: the configuration is read at construction and read again by
a successful build, which reads exactly the three learning-rate schedule
keys; checkpoint, tensorboard, train and evaluate read no configuration key
(and no operation of the embedding modifies the configuration, which is
passed by value). -/
theorem config_reads_after_init (cfg : ConfigMap) (now : String) (s s2 : UNetState)
    (fs : FileSystem) (hist : History) (predictF : NetModel → Tensor → Tensor)
    (h : (build cfg s).1 = some s2) :
    (build cfg s).2 = [kInitialLearningRate, kDecaySteps, kDecayRate] ∧
    (checkpoint cfg s).2 = [] ∧
    (tensorboard cfg now s).2 = [] ∧
    (train cfg s fs hist).2 = [] ∧
    (evaluate cfg predictF s).2 = [] := by
  refine ⟨?_, rfl, rfl, rfl, rfl⟩
  unfold build at h ⊢
  rcases h1 : (cfgGet cfg "train" "initial_learning_rate").bind ConfigVal.asRat with _ | ilr
  · rw [h1] at h
    exact Option.noConfusion (show (none : Option UNetState) = some s2 from h)
  · rcases h2 : (cfgGet cfg "train" "decay_steps").bind ConfigVal.asNat with _ | ds
    · rw [h1, h2] at h
      exact Option.noConfusion (show (none : Option UNetState) = some s2 from h)
    · rcases h3 : (cfgGet cfg "train" "decay_rate").bind ConfigVal.asRat with _ | dr
      · rfl
      · rfl

/-- Witness for C7 amended at the sample configuration. -/
theorem config_reads_after_init_witness :
    (build sampleCfg initState0).2 = [kInitialLearningRate, kDecaySteps, kDecayRate] ∧
    (checkpoint sampleCfg initState0).2 = [] ∧
    (tensorboard sampleCfg "ts" initState0).2 = [] ∧
    (train sampleCfg initState0 [] 0).2 = [] ∧
    (evaluate sampleCfg (fun _ t => t) initState0).2 = [] :=
  config_reads_after_init sampleCfg "ts" initState0 builtState0 [] 0 (fun _ t => t) rfl

/-- C8: evaluate runs inference over the held-out test input and forwards
exactly the triple (expected output, input, predicted output), in that
order, to the plotting collaborator; that forwarded triple is its entire
observable result, with no numeric metric and no returned value beyond it. -/
theorem evaluate_forwards_triple (cfg : ConfigMap)
    (predictF : NetModel → Tensor → Tensor) (s : UNetState)
    (m : CompiledModel) (ti : Tensor)
    (hm : s.model = some m) (hti : s.test_input = some ti) :
    (evaluate cfg predictF s).1 = Except.ok (s.test_output, ti, predictF m.net ti) := by
  simp [evaluate, hm, hti]

/-- Witness for C8 on the sample built state with loaded test data and the
identity prediction function. -/
theorem evaluate_forwards_triple_witness :
    (evaluate sampleCfg (fun _ t => t) evalReadyState).1 =
      Except.ok (evalReadyState.test_output, [[1]], [[1]]) :=
  evaluate_forwards_triple sampleCfg (fun _ t => t) evalReadyState sampleCompiled [[1]] rfl rfl

/-- C9: the history-serialization call passes its two arguments in reversed
order, the opened file handle in the object slot and the history in the
stream slot; therefore, whatever handle is supplied (a writable one
included, so even with the open mode corrected), the call as written fails
and never serializes the training history. -/
theorem history_dump_args_reversed (f : FileHandle) (hist : History) (fs : FileSystem) :
    (historyDumpCall f hist).obj = PyObj.file f ∧
    (historyDumpCall f hist).sink = PyObj.history hist ∧
    pickleDumpCall (historyDumpCall f hist) fs =
      Except.error (PyErr.attributeMissing "write") :=
  ⟨rfl, rfl, rfl⟩

/-- C10: checkpoint and tensorboard each set only their own callback field;
every other wrapper field is returned unchanged by both calls. -/
theorem callback_setters_frame (cfg : ConfigMap) (now : String) (s : UNetState) :
    ((checkpoint cfg s).1.checkpoint_callback =
        some (checkpointCB s.model_path s.experiment_name) ∧
      (checkpoint cfg s).1.train_input = s.train_input ∧
      (checkpoint cfg s).1.train_output = s.train_output ∧
      (checkpoint cfg s).1.test_input = s.test_input ∧
      (checkpoint cfg s).1.test_output = s.test_output ∧
      (checkpoint cfg s).1.data_generator = s.data_generator ∧
      (checkpoint cfg s).1.model_path = s.model_path ∧
      (checkpoint cfg s).1.experiment_name = s.experiment_name ∧
      (checkpoint cfg s).1.model = s.model ∧
      (checkpoint cfg s).1.tensorboard_callback = s.tensorboard_callback ∧
      (checkpoint cfg s).1.epochs = s.epochs ∧
      (checkpoint cfg s).1.train_batch_size = s.train_batch_size ∧
      (checkpoint cfg s).1.val_batch_size = s.val_batch_size) ∧
    ((tensorboard cfg now s).1.1.tensorboard_callback =
        some { log_dir := joinPath [s.model_path, "logs", s.experiment_name, now]
               histogram_freq := 1 } ∧
      (tensorboard cfg now s).1.1.train_input = s.train_input ∧
      (tensorboard cfg now s).1.1.train_output = s.train_output ∧
      (tensorboard cfg now s).1.1.test_input = s.test_input ∧
      (tensorboard cfg now s).1.1.test_output = s.test_output ∧
      (tensorboard cfg now s).1.1.data_generator = s.data_generator ∧
      (tensorboard cfg now s).1.1.model_path = s.model_path ∧
      (tensorboard cfg now s).1.1.experiment_name = s.experiment_name ∧
      (tensorboard cfg now s).1.1.model = s.model ∧
      (tensorboard cfg now s).1.1.checkpoint_callback = s.checkpoint_callback ∧
      (tensorboard cfg now s).1.1.epochs = s.epochs ∧
      (tensorboard cfg now s).1.1.train_batch_size = s.train_batch_size ∧
      (tensorboard cfg now s).1.1.val_batch_size = s.val_batch_size) :=
  ⟨⟨rfl, rfl, rfl, rfl, rfl, rfl, rfl, rfl, rfl, rfl, rfl, rfl, rfl⟩,
   ⟨rfl, rfl, rfl, rfl, rfl, rfl, rfl, rfl, rfl, rfl, rfl, rfl, rfl⟩⟩

end UNet
